import Mathlib

/-!
Verification development for `src/uperf_plugin.py` (arcaflow-plugin-uperf).

The Python module is embedded shallowly:

* text (the decoded child-process output and the emitted config document) is a
  `List Char`;
* Python dicts are insertion-ordered association lists (`dictGet`/`dictSet`);
* Python `float` values arising from `float()` on strings matched by `[\d\.]+`
  are modelled exactly over `ℚ` (IEEE-754 rounding and overflow to infinity are
  not modelled; every value appearing in the theorems below is exactly
  representable at double precision);
* code that can raise an uncaught Python exception returns
  `Except PyFault _`, with a `PyFault` constructor per exception kind;
* child processes and the filesystem are abstracted at the `subprocess`
  boundary: a behavior datatype says what the spawned process did, and the
  filesystem is reduced to whether the file at `profile_path` exists.
-/

set_option autoImplicit false
set_option maxRecDepth 4000

namespace Uperf

/-! ## Python dicts as insertion-ordered association lists -/

/-- Python dict membership / guarded lookup `d[k]`: first (and only) binding of `k`. -/
def dictGet {κ ν : Type} [DecidableEq κ] : List (κ × ν) → κ → Option ν
  | [], _ => none
  | (k', v') :: t, k => if k' = k then some v' else dictGet t k

/-- Python dict assignment `d[k] = v`: update in place when the key exists,
append otherwise (insertion order is preserved, as for Python dicts). -/
def dictSet {κ ν : Type} [DecidableEq κ] : List (κ × ν) → κ → ν → List (κ × ν)
  | [], k, v => [(k, v)]
  | (k', v') :: t, k, v => if k' = k then (k, v) :: t else (k', v') :: dictSet t k v

/-- Python `k in d`. -/
def dictHas {κ ν : Type} [DecidableEq κ] (d : List (κ × ν)) (k : κ) : Bool :=
  (dictGet d k).isSome

/-! ## The workload model

`uperf_schema` is not part of `src/`; these structures record exactly the
fields `write_profile` reads from it (optional, possibly-conflicting fields as
in the Python schema classes; `get_options()` is the `options` field). -/

structure Flowop where
  type : String
  options : List String
deriving DecidableEq

structure Transaction where
  iterations : Option Nat
  duration : Option String
  rate : Option Nat
  flowops : List Flowop
deriving DecidableEq

structure Group where
  nthreads : Option Nat
  nprocs : Option Nat
  transactions : List Transaction
deriving DecidableEq

structure Profile where
  name : String
  groups : List Group
deriving DecidableEq

/-! ## `write_profile`: the emitted config document

`write_profile` builds an `xml.etree.ElementTree` tree, applies `ET.indent`
(two-space indent), writes it with `encoding="us-ascii"` and
`xml_declaration=True`, and appends one final newline. The serialized text is
reproduced here directly. -/

/-- `ElementTree`'s attribute-value escaping (`_escape_attrib`), combined with
the `us-ascii` codec's numeric character references for non-ASCII characters. -/
def escAttrib : List Char → List Char
  | [] => []
  | c :: t =>
    (if c = '&' then "&amp;".toList
     else if c = '<' then "&lt;".toList
     else if c = '>' then "&gt;".toList
     else if c = '"' then "&quot;".toList
     else if c = '\r' then "&#13;".toList
     else if c = '\n' then "&#10;".toList
     else if c = '\t' then "&#09;".toList
     else if 128 ≤ c.toNat then "&#".toList ++ (toString c.toNat).toList ++ ";".toList
     else [c]) ++ escAttrib t

/-- Serialized attribute list, in insertion order: one ` key="value"` each. -/
def attrsText : List (String × String) → List Char
  | [] => []
  | (k, v) :: t => ' ' :: (k.toList ++ '=' :: '"' :: (escAttrib v.toList ++ '"' :: attrsText t))

/-- `ET.indent` uses two spaces per nesting level. -/
def indentChars (d : Nat) : List Char := List.replicate (2 * d) ' '

/-- One element as `ET.indent` + `ElementTree.write` serialize it at depth `d`:
a childless element self-closes as `<tag attrs />`; an element with children
puts every child on its own line, indented one level deeper, and closes on its
own line. `children` are the already-serialized child elements. -/
def elemXml (tag : String) (attrs : List (String × String))
    (children : List (List Char)) (d : Nat) : List Char :=
  match children with
  | [] => ('<' :: (tag.toList ++ attrsText attrs ++ [' ', '/'])) ++ ['>']
  | cs =>
    ('<' :: (tag.toList ++ attrsText attrs ++ ['>'] ++
      (cs.map (fun c => '\n' :: (indentChars (d + 1) ++ c))).flatten ++
      '\n' :: (indentChars d ++ '<' :: '/' :: tag.toList))) ++ ['>']

/-- Attributes of a `group` element: the `if group.nthreads is not None /
elif group.nprocs is not None` chain of `write_profile`. -/
def groupAttrs (g : Group) : List (String × String) :=
  match g.nthreads with
  | some n => [("nthreads", toString n)]
  | none =>
    match g.nprocs with
    | some n => [("nprocs", toString n)]
    | none => []

/-- Attributes of a `transaction` element: the `iterations / duration / rate`
`if/elif` chain of `write_profile`. -/
def transactionAttrs (t : Transaction) : List (String × String) :=
  match t.iterations with
  | some n => [("iterations", toString n)]
  | none =>
    match t.duration with
    | some d => [("duration", d)]
    | none =>
      match t.rate with
      | some r => [("rate", toString r)]
      | none => []

/-- Attributes of a `flowop` element: `type`, then `options` joined by single
spaces when `len(options) > 0`. -/
def flowopAttrs (f : Flowop) : List (String × String) :=
  ("type", f.type) ::
    (if 0 < f.options.length then [("options", String.intercalate " " f.options)] else [])

def flowopXml (d : Nat) (f : Flowop) : List Char :=
  elemXml "flowop" (flowopAttrs f) [] d

def transactionXml (d : Nat) (t : Transaction) : List Char :=
  elemXml "transaction" (transactionAttrs t) (t.flowops.map (flowopXml (d + 1))) d

def groupXml (d : Nat) (g : Group) : List Char :=
  elemXml "group" (groupAttrs g) (g.transactions.map (transactionXml (d + 1))) d

/-- The document text `write_profile` leaves at `profile_path`: the XML
declaration that `ElementTree.write` emits for `us-ascii`, the indented tree
rooted at `<profile name=...>`, and the manually appended final newline. -/
def write_profile (p : Profile) : List Char :=
  ("<?xml version='1.0' encoding='us-ascii'?>\n").toList ++
    elemXml "profile" [("name", p.name)] (p.groups.map (groupXml 1)) 0 ++ ['\n']

/-! ## The log scanner (`re.search` / `re.findall` of `process_output`)

Both regular expressions are embedded directly. Neither pattern needs general
backtracking: in `timestamp_ms:([\d\.]+) name:Txn(\d+) nr_bytes:(\d+) nr_ops:(\d+)`
every greedy class is followed by a literal that starts with a character the
class cannot match, so maximal munch is exact; in `running profile:(.+) \.\.\.`
the greedy `.+` (which does not cross a newline) amounts to taking the longest
nonempty stretch of the current line that is followed by a literal ` ...`. -/

/-- `pat` is an initial segment of `l`. -/
def hasPrefixL : List Char → List Char → Bool
  | [], _ => true
  | _ :: _, [] => false
  | p :: ps, c :: cs => if p = c then hasPrefixL ps cs else false

/-- `bytes.find(pat) != -1` / Python `in`: `pat` occurs contiguously in `l`. -/
def containsSub (pat : List Char) : List Char → Bool
  | [] => hasPrefixL pat []
  | c :: t => hasPrefixL pat (c :: t) || containsSub pat t

/-- The `(.+) \.\.\.` part of the profile-name pattern, tried where a literal
`running profile:` just ended: the capture is the longest nonempty take of the
current line whose remainder starts with ` ...`. -/
def profileCaptureAt (rest : List Char) : Option (List Char) :=
  let seg := rest.takeWhile (fun c => c ≠ '\n')
  match (List.range (seg.length + 1)).reverse.find?
      (fun i => decide (1 ≤ i) && hasPrefixL (" ...").toList (seg.drop i)) with
  | some i => some (seg.take i)
  | none => none

/-- `re.search(r"running profile:(.+) \.\.\.", s)`: the leftmost position
where a full match starts wins; the captured group is returned. -/
def findProfileRun : List Char → Option (List Char)
  | [] => none
  | c :: t =>
    if hasPrefixL ("running profile:").toList (c :: t) then
      match profileCaptureAt ((c :: t).drop ("running profile:").length) with
      | some cap => some cap
      | none => findProfileRun t
    else findProfileRun t

/-- The four captured groups of one sample record, still as text. -/
structure RawSample where
  ts : List Char
  txn : List Char
  nbytes : List Char
  nops : List Char
deriving DecidableEq

/-- Maximal nonempty run of characters satisfying `p`, and the rest. -/
def munch1 (p : Char → Bool) (l : List Char) : Option (List Char × List Char) :=
  let run := l.takeWhile p
  if run.isEmpty then none else some (run, l.dropWhile p)

/-- Match a literal and return the remaining text. -/
def chopLit (pat l : List Char) : Option (List Char) :=
  if hasPrefixL pat l then some (l.drop pat.length) else none

/-- One attempt of the sample pattern
`timestamp_ms:([\d\.]+) name:Txn(\d+) nr_bytes:(\d+) nr_ops:(\d+)` at the head
of `l`; on success returns the captures and the text after the match. -/
def sampleAt (l : List Char) : Option (RawSample × List Char) :=
  match chopLit ("timestamp_ms:").toList l with
  | none => none
  | some l1 =>
    match munch1 (fun c => c.isDigit || c == '.') l1 with
    | none => none
    | some (ts, l2) =>
      match chopLit (" name:Txn").toList l2 with
      | none => none
      | some l3 =>
        match munch1 Char.isDigit l3 with
        | none => none
        | some (txn, l4) =>
          match chopLit (" nr_bytes:").toList l4 with
          | none => none
          | some l5 =>
            match munch1 Char.isDigit l5 with
            | none => none
            | some (nb, l6) =>
              match chopLit (" nr_ops:").toList l6 with
              | none => none
              | some l7 =>
                match munch1 Char.isDigit l7 with
                | none => none
                | some (no, l8) => some (⟨ts, txn, nb, no⟩, l8)

/-- `re.findall`: left-to-right, non-overlapping scan. On a match, continue
after the matched text, otherwise advance one character. `fuel` only bounds
the recursion; set to the text length it is never exhausted early, since every
step consumes at least one character. -/
def findAllFuel : Nat → List Char → List RawSample
  | 0, _ => []
  | _ + 1, [] => []
  | n + 1, c :: t =>
    match sampleAt (c :: t) with
    | some (s, rest) => s :: findAllFuel n rest
    | none => findAllFuel n t

/-- All sample records of the text, in order of appearance. -/
def findAllSamples (l : List Char) : List RawSample := findAllFuel l.length l

/-! ## Numeric conversion of the captures -/

/-- Python `int()` of a nonempty decimal-digit string. -/
def parseNatDigits (l : List Char) : Nat :=
  l.foldl (fun a c => 10 * a + (c.toNat - 48)) 0

/-- Python `float()` of a string matched by `[\d\.]+`, exactly over `ℚ`:
defined when the string has at most one dot and at least one digit; `none`
models the `ValueError` that `float()` raises otherwise (for example on `"."`
or `"1.2.3"`, both matched by the character class). The decimal `a.b` denotes
the rational `(a·10^k + b) / 10^k` where `k` is the number of fraction digits.
(Rationals are built with `mkRat num den` throughout so that they evaluate by
kernel reduction.) -/
def parseFloatVal (l : List Char) : Option ℚ :=
  if l.count '.' = 0 then
    if l.isEmpty then none else some (mkRat (parseNatDigits l : Int) 1)
  else if l.count '.' = 1 then
    let a := l.takeWhile (fun c => c ≠ '.')
    let b := (l.dropWhile (fun c => c ≠ '.')).tail
    if a.isEmpty && b.isEmpty then none
    else some (mkRat ((parseNatDigits a * 10 ^ b.length + parseNatDigits b : Nat) : Int)
      (10 ^ b.length))
  else none

/-- Python `int(x)` on a number: truncation toward zero, which for a rational
`num / den` (with `den > 0`) is the truncated integer division `num.tdiv den`. -/
def pyIntOfRat (q : ℚ) : Int := q.num.tdiv (q.den : Int)

/-- `int(float(datapoint[0]) * 1000)`: the scaled integer timestamp key
(`q * 1000 = (q.num * 1000) / q.den`). -/
def pyTime (q : ℚ) : Int := pyIntOfRat (mkRat (q.num * 1000) q.den)

/-! ## `process_output` -/

/-- Uncaught Python exceptions the plugin code can raise. -/
inductive PyFault where
  /-- `KeyError`: `transaction_last_timestamp[transaction_index]` with the key absent. -/
  | keyError (k : Nat)
  /-- `ValueError`: `float()` on a malformed numeric string. -/
  | valueError
  /-- `TypeError`: `bytes + str` concatenation. -/
  | typeError
  /-- `OSError` out of `subprocess.Popen`: the binary cannot be spawned. -/
  | launchError
deriving DecidableEq

instance {ε α : Type} [DecidableEq ε] [DecidableEq α] : DecidableEq (Except ε α) := fun x y =>
  match x, y with
  | .ok a, .ok b =>
    if h : a = b then .isTrue (by rw [h]) else .isFalse (by intro hc; injection hc; contradiction)
  | .error a, .error b =>
    if h : a = b then .isTrue (by rw [h]) else .isFalse (by intro hc; injection hc; contradiction)
  | .ok _, .error _ => .isFalse (fun hc => by injection hc)
  | .error _, .ok _ => .isFalse (fun hc => by injection hc)

/-- `UPerfRawData(bytes, ops, ns_per_op)`. -/
structure UPerfRawData where
  bytes : Nat
  ops : Nat
  ns_per_op : Int
deriving DecidableEq

/-- `timeseries_data`: transaction index ↦ (timestamp ↦ measurement), both
levels insertion-ordered Python dicts. -/
abbrev TimeseriesData := List (Nat × List (Int × UPerfRawData))

/-- One iteration of the `for datapoint in timeseries_data_search:` loop of
`process_output`, over the state `(transaction_last_timestamp, timeseries_data)`.
The branch `if ops != 0 or (transaction_index in transaction_last_timestamp):`
records a measurement; inside it the conditional expression for `ns_per_op`
reads `transaction_last_timestamp[transaction_index]` only when `ops != 0`,
raising `KeyError` when that key is absent (a first sample with nonzero ops).
In every case `transaction_last_timestamp[transaction_index]` is then set to
the current timestamp. -/
def processSample (tlt : List (Nat × Int)) (tsd : TimeseriesData) (r : RawSample) :
    Except PyFault (List (Nat × Int) × TimeseriesData) :=
  match parseFloatVal r.ts with
  | none => .error .valueError
  | some q =>
    let time : Int := pyTime q
    let transaction_index := parseNatDigits r.txn
    let bytes := parseNatDigits r.nbytes
    let ops := parseNatDigits r.nops
    if ops ≠ 0 ∨ dictHas tlt transaction_index then
      match (if ops ≠ 0 then
              match dictGet tlt transaction_index with
              | some last =>
                Except.ok (pyIntOfRat (mkRat (1000 * (time - last)) ops))
              | none => Except.error (PyFault.keyError transaction_index)
             else Except.ok 0) with
      | .error f => .error f
      | .ok ns_per_op =>
        let inner := (dictGet tsd transaction_index).getD []
        .ok (dictSet tlt transaction_index time,
             dictSet tsd transaction_index (dictSet inner time ⟨bytes, ops, ns_per_op⟩))
    else
      .ok (dictSet tlt transaction_index time, tsd)

/-- The whole sample loop of `process_output`. -/
def processSamples :
    List RawSample → List (Nat × Int) → TimeseriesData → Except PyFault TimeseriesData
  | [], _, tsd => .ok tsd
  | r :: rs, tlt, tsd =>
    match processSample tlt tsd r with
    | .error f => .error f
    | .ok (tlt', tsd') => processSamples rs tlt' tsd'

def nameNotFoundMsg (decoded_output : List Char) : List Char :=
  ("Failed to parse output: could not find profile name.\nOutput: ").toList ++ decoded_output

def noResultsMsg (decoded_output : List Char) : List Char :=
  ("No results found.\nOutput: ").toList ++ decoded_output

/-- The tagged pair `process_output` returns: `("error", UPerfError(msg))` or
`("success", UPerfResults(profile_name, timeseries_data))`. -/
inductive UPerfOutcome where
  | error (msg : List Char)
  | success (profile_name : List Char) (timeseries_data : TimeseriesData)
deriving DecidableEq

/-- `process_output(output)` on the already-decoded text. `Except.error f`
models the Python code raising `f` uncaught instead of returning. The sample
loop runs before the `len(timeseries_data_search) == 0` check, exactly as in
the source. -/
def process_output (decoded_output : List Char) : Except PyFault UPerfOutcome :=
  match findProfileRun decoded_output with
  | none => .ok (.error (nameNotFoundMsg decoded_output))
  | some profile_run =>
    let timeseries_data_search := findAllSamples decoded_output
    match processSamples timeseries_data_search [] [] with
    | .error f => .error f
    | .ok timeseries_data =>
      if timeseries_data_search.length = 0 then .ok (.error (noResultsMsg decoded_output))
      else .ok (.success profile_run timeseries_data)

/-! ## `run_uperf` (client) and `run_uperf_server` -/

/-- What the spawned client process did. `stderrData` is everything the child
wrote to its error stream. -/
inductive ClientBehavior where
  /-- `subprocess.Popen` raised: the binary could not be spawned. -/
  | launchFailure
  /-- The child ran to completion. -/
  | runs (stdout : List Char) (stderrData : List Char)

/-- `master_process.communicate()` for `start_client`: stdout was opened with
`stdout=subprocess.PIPE` and is returned; no `stderr` argument was passed to
`Popen`, so the error stream is inherited, not captured, and its slot is
`None` no matter what the child wrote. -/
def communicateClient (stdout _stderrData : List Char) : List Char × Option (List Char) :=
  (stdout, none)

/-- `errs is not None and len(errs) > 0`. -/
def errsNonempty : Option (List Char) → Bool
  | some e => decide (0 < e.length)
  | none => false

/-- `run_uperf(params)`, with the filesystem reduced to whether the file at
`profile_path` exists (`fs0` on entry). Returns that flag as left after the
invocation, together with the tagged step result or the uncaught fault that
aborted the invocation. Control flow of the source: `clean_profile()`;
`write_profile(params)`; spawn (an `OSError` here propagates, and no cleanup
runs on that path); `communicate()`; `clean_profile()`; the `errs` check; the
`aborted` / `WARNING: Errors detected during run` marker check;
`process_output(outs)`. -/
def run_uperf (params : Profile) (behavior : ClientBehavior) (fs0 : Bool) :
    Bool × Except PyFault UPerfOutcome :=
  -- clean_profile(): the artifact no longer exists, whatever fs0 said
  let _fs1 := fs0 && false
  -- write_profile(params): the artifact now exists, with this content
  let _doc := write_profile params
  let fs2 := true
  match behavior with
  | .launchFailure => (fs2, .error .launchError)
  | .runs stdout stderrData =>
    let outsErrs := communicateClient stdout stderrData
    let outs := outsErrs.1
    let errs := outsErrs.2
    -- clean_profile()
    let fs3 := false
    if errsNonempty errs then
      -- `outs + "\n" + errs.decode("utf-8")` itself raises: bytes + str
      (fs3, .error .typeError)
    else if containsSub ("aborted").toList outs ||
        containsSub ("WARNING: Errors detected during run").toList outs then
      (fs3, .ok (.error (("Errors found in run. Output:\n").toList ++ outs)))
    else
      (fs3, process_output outs)

/-- What the spawned server process did before `params.run_duration` elapsed. -/
inductive ServerBehavior where
  /-- `subprocess.run` returned: the server exited early. -/
  | exits (returncode : Int) (stdout stderrData : List Char)
  /-- `subprocess.TimeoutExpired` was raised: the server was still running. -/
  | timesOut

/-- The tagged pair `run_uperf_server` returns: `("error", UPerfServerError(code, output))`
or `("success", UPerfServerResults())`. -/
inductive ServerOutcome where
  | error (exit_code : Int) (output : List Char)
  | success
deriving DecidableEq

/-- `run_uperf_server(params)`: a completed `subprocess.run` is the error path
(exit code plus decoded stdout followed by decoded stderr); `TimeoutExpired`
is the success path with an empty payload. -/
def run_uperf_server (behavior : ServerBehavior) : ServerOutcome :=
  match behavior with
  | .exits returncode stdout stderrData => .error returncode (stdout ++ stderrData)
  | .timesOut => .success

/-! ## The spec-side invariant and first-set-wins normalization -/

/-- Modelled from the spec: the Workload Model mutual-exclusivity invariant —
exactly one of `thread_count`/`process_count` per group and exactly one of
`iteration_count`/`duration`/`target_rate` per transaction. No validation of
this invariant appears anywhere in `src/uperf_plugin.py`. -/
def validProfileB (p : Profile) : Bool :=
  p.groups.all fun g =>
    ((if g.nthreads.isSome then 1 else 0) + (if g.nprocs.isSome then 1 else 0) == 1) &&
      g.transactions.all fun t =>
        ((if t.iterations.isSome then 1 else 0) + (if t.duration.isSome then 1 else 0) +
          (if t.rate.isSome then 1 else 0) == (1 : Nat))

/-- Drop the group fields shadowed by `write_profile`'s `if/elif` chain:
`nprocs` is ignored whenever `nthreads` is set. -/
def normGroup (g : Group) : Group :=
  match g.nthreads with
  | some _ => { g with nprocs := none }
  | none => g

/-- Drop the transaction fields shadowed by `write_profile`'s `if/elif` chain:
`duration` and `rate` are ignored when `iterations` is set, `rate` when
`duration` is set. -/
def normTransaction (t : Transaction) : Transaction :=
  match t.iterations with
  | some _ => { t with duration := none, rate := none }
  | none =>
    match t.duration with
    | some _ => { t with rate := none }
    | none => t

/-- First-set-wins normalization of a whole profile. -/
def normProfile (p : Profile) : Profile :=
  { p with
    groups := p.groups.map fun g =>
      { normGroup g with transactions := g.transactions.map normTransaction } }

/-! ## Helper lemmas -/

theorem dictGet_dictSet_self {κ ν : Type} [DecidableEq κ] (d : List (κ × ν)) (k : κ) (v : ν) :
    dictGet (dictSet d k v) k = some v := by
  induction d with
  | nil => simp [dictSet, dictGet]
  | cons p t ih =>
    rcases p with ⟨k', v'⟩
    by_cases h : k' = k
    · subst h; simp [dictSet, dictGet]
    · simp [dictSet, dictGet, h, ih]

theorem dictGet_dictSet_ne {κ ν : Type} [DecidableEq κ] (d : List (κ × ν)) (k k' : κ) (v : ν)
    (h : k' ≠ k) : dictGet (dictSet d k v) k' = dictGet d k' := by
  induction d with
  | nil => simp [dictSet, dictGet, Ne.symm h]
  | cons p t ih =>
    rcases p with ⟨k1, v1⟩
    by_cases hk : k1 = k
    · subst hk; simp [dictSet, dictGet, Ne.symm h]
    · by_cases hk' : k1 = k'
      · subst hk'; simp [dictSet, dictGet, hk]
      · simp [dictSet, dictGet, hk, hk', ih]

theorem noResults_ne_nameNotFound (s : List Char) : noResultsMsg s ≠ nameNotFoundMsg s := by
  intro h
  unfold noResultsMsg nameNotFoundMsg at h
  have h2 := congrArg List.length h
  rw [List.length_append, List.length_append] at h2
  have h3 := Nat.add_right_cancel h2
  revert h3
  decide

theorem elemXml_close (tag : String) (attrs : List (String × String))
    (children : List (List Char)) (d : Nat) :
    ∃ pre : List Char, elemXml tag attrs children d = pre ++ ['>'] := by
  cases children with
  | nil => exact ⟨_, rfl⟩
  | cons c cs => exact ⟨_, rfl⟩

theorem listMapEq {α β : Type} (f g : α → β) (h : ∀ a, f a = g a) :
    ∀ l : List α, l.map f = l.map g := by
  intro l
  induction l with
  | nil => rfl
  | cons a t ih => simp only [List.map_cons, h a, ih]

theorem transactionXml_norm (d : Nat) (t : Transaction) :
    transactionXml d (normTransaction t) = transactionXml d t := by
  rcases t with ⟨ti, td, tr, tf⟩
  cases ti <;> cases td <;> cases tr <;> rfl

theorem groupXml_norm (d : Nat) (g : Group) :
    groupXml d { normGroup g with transactions := g.transactions.map normTransaction }
      = groupXml d g := by
  rcases g with ⟨nt, np, ts⟩
  have hts : (ts.map normTransaction).map (transactionXml (d + 1))
      = ts.map (transactionXml (d + 1)) := by
    rw [List.map_map]
    exact listMapEq _ _ (fun a => transactionXml_norm (d + 1) a) ts
  cases nt <;> cases np <;> simp only [groupXml, normGroup, groupAttrs, hts]

/-- The sample loop leaves `timeseries_data` untouched when every sample in the
list has operation count `0`, is the first for its transaction index relative
to `tlt`, and the indices are pairwise distinct. -/
theorem processSamples_fresh_zero :
    ∀ (tds : List RawSample) (tlt : List (Nat × Int)) (tsd : TimeseriesData),
      (∀ r ∈ tds, (parseFloatVal r.ts).isSome ∧ parseNatDigits r.nops = 0) →
      (∀ r ∈ tds, dictGet tlt (parseNatDigits r.txn) = none) →
      (tds.map fun r => parseNatDigits r.txn).Nodup →
      processSamples tds tlt tsd = .ok tsd := by
  intro tds
  induction tds with
  | nil => intro tlt tsd _ _ _; rfl
  | cons r rs ih =>
    intro tlt tsd hv hf hn
    obtain ⟨hvr, hops⟩ := hv r (List.mem_cons_self r rs)
    obtain ⟨q, hq⟩ := Option.isSome_iff_exists.mp hvr
    have hfr : dictGet tlt (parseNatDigits r.txn) = none := hf r (List.mem_cons_self r rs)
    have hstep : processSample tlt tsd r
        = .ok (dictSet tlt (parseNatDigits r.txn) (pyTime q), tsd) := by
      simp [processSample, hq, hops, dictHas, hfr]
    simp only [processSamples, hstep]
    apply ih
    · intro x hx; exact hv x (List.mem_cons_of_mem r hx)
    · intro x hx
      have hmem : parseNatDigits r.txn ∉ rs.map fun y => parseNatDigits y.txn :=
        (List.nodup_cons.mp hn).1
      have hne : parseNatDigits x.txn ≠ parseNatDigits r.txn := by
        intro hEq
        exact hmem (hEq ▸ List.mem_map_of_mem _ hx)
      rw [dictGet_dictSet_ne _ _ _ _ hne]
      exact hf x (List.mem_cons_of_mem r hx)
    · exact (List.nodup_cons.mp hn).2

/-! ## The claims -/

/-- C1: the claim says `process_output` always returns a tagged
success-or-error value and never raises an uncaught fault, in particular for
an input whose first sample record for some transaction index has a nonzero
operation count. The code disagrees: on such an input the recording branch is
taken (`ops != 0`) and the `ns_per_op` expression reads
`transaction_last_timestamp[transaction_index]` before any entry for that key
exists, raising an uncaught `KeyError`. This theorem evaluates the embedded
code at such a failing input. -/
theorem c1_first_nonzero_sample_keyError :
    process_output
        ("running profile:test ...\ntimestamp_ms:1000.00 name:Txn1 nr_bytes:100 nr_ops:5").toList
      = .error (.keyError 1) := by decide

/-- C2: if the first sample seen for a transaction index has operation count
`0`, it is discarded — no measurement is recorded — but the last-timestamp
entry for that index is still updated; a second sample for the same index
(any ops value) is then recorded and, when its ops is nonzero, its derived
latency is computed against the first sample's timestamp. Stated for the
sample loop at an arbitrary loop state in which index `t` is fresh, so it
applies at any position inside any parsed output. -/
theorem c2_first_zero_sample_suppressed (r1 r2 : RawSample) (tlt : List (Nat × Int))
    (tsd : TimeseriesData) (q1 q2 : ℚ) (t : Nat)
    (h1 : parseFloatVal r1.ts = some q1) (h2 : parseFloatVal r2.ts = some q2)
    (ht1 : parseNatDigits r1.txn = t) (ht2 : parseNatDigits r2.txn = t)
    (hops1 : parseNatDigits r1.nops = 0)
    (hT : dictGet tlt t = none) (hD : dictGet tsd t = none) :
    processSample tlt tsd r1 = .ok (dictSet tlt t (pyTime q1), tsd) ∧
    processSamples [r1, r2] tlt tsd = .ok (dictSet tsd t [(pyTime q2,
      ⟨parseNatDigits r2.nbytes, parseNatDigits r2.nops,
        if parseNatDigits r2.nops = 0 then 0
        else pyIntOfRat (mkRat (1000 * (pyTime q2 - pyTime q1))
          (parseNatDigits r2.nops))⟩)]) := by
  have hstep1 : processSample tlt tsd r1 = .ok (dictSet tlt t (pyTime q1), tsd) := by
    simp [processSample, h1, ht1, hops1, dictHas, hT]
  refine ⟨hstep1, ?_⟩
  have hstep2 : processSample (dictSet tlt t (pyTime q1)) tsd r2
      = .ok (dictSet (dictSet tlt t (pyTime q1)) t (pyTime q2), dictSet tsd t [(pyTime q2,
        ⟨parseNatDigits r2.nbytes, parseNatDigits r2.nops,
          if parseNatDigits r2.nops = 0 then 0
          else pyIntOfRat (mkRat (1000 * (pyTime q2 - pyTime q1))
            (parseNatDigits r2.nops))⟩)]) := by
    by_cases hop : parseNatDigits r2.nops = 0
    · simp [processSample, h2, ht2, hop, dictHas, dictGet_dictSet_self, hD, dictSet]
    · simp [processSample, h2, ht2, hop, dictHas, dictGet_dictSet_self, hD, dictSet]
  simp only [processSamples, hstep1, hstep2]

/-- C3: the claim asserts that for two consecutive samples of transaction 3 at
1000ms and 1500ms (scaled keys 1000000 and 1500000) with `ops=50` on the
second, the recorded derived latency is `1000*(1500000-1000000)/50 = 10000`.
The formula is the code's, but its claimed value is wrong: the quotient is
10000000, not 10000. This counterexample evaluates the parser on exactly that
input. -/
theorem c3_counterexample :
    process_output
        ("running profile:p ...\ntimestamp_ms:1000.00 name:Txn3 nr_bytes:7500 nr_ops:0\ntimestamp_ms:1500.00 name:Txn3 nr_bytes:7500 nr_ops:50").toList
      = .ok (.success ("p").toList [(3, [(1500000, ⟨7500, 50, 10000000⟩)])]) ∧
    process_output
        ("running profile:p ...\ntimestamp_ms:1000.00 name:Txn3 nr_bytes:7500 nr_ops:0\ntimestamp_ms:1500.00 name:Txn3 nr_bytes:7500 nr_ops:50").toList
      ≠ .ok (.success ("p").toList [(3, [(1500000, ⟨7500, 50, 10000⟩)])]) := by
  constructor
  · decide
  · decide

/-- C3 (amended): with the arithmetic corrected, the recorded measurement for
the second sample carries `derived_latency = 1000*(1500000-1000000)/50 =
10000000` nanoseconds per operation. -/
theorem c3_amended_latency :
    process_output
        ("running profile:p ...\ntimestamp_ms:1000.00 name:Txn3 nr_bytes:7500 nr_ops:0\ntimestamp_ms:1500.00 name:Txn3 nr_bytes:7500 nr_ops:50").toList
      = .ok (.success ("p").toList
          [(3, [(1500000, ⟨7500, 50, pyIntOfRat (mkRat (1000 * (1500000 - 1000000)) 50)⟩)])]) ∧
    pyIntOfRat (mkRat (1000 * (1500000 - 1000000)) 50) = 10000000 := by
  constructor
  · decide
  · decide

/-- C4: the claim says the config artifact is gone on every exit path of
`run_uperf`, including a child-process launch failure. The code has no
`try/finally`: when `subprocess.Popen` raises, the exception propagates after
`write_profile` created the artifact and before any `clean_profile()` runs,
so the artifact is still on disk. -/
theorem c4_counterexample :
    run_uperf ⟨"c4", []⟩ .launchFailure false = (true, .error .launchError) := by decide

/-- C4 (amended): the artifact is absent after every invocation in which the
child process was actually spawned (success, self-reported error, parse error
or parse fault), but after a launch failure it remains on disk. -/
theorem c4_amended_cleanup :
    (∀ (params : Profile) (stdout stderrData : List Char) (fs0 : Bool),
      (run_uperf params (.runs stdout stderrData) fs0).1 = false) ∧
    (∀ (params : Profile) (fs0 : Bool),
      (run_uperf params .launchFailure fs0).1 = true) := by
  constructor
  · intro params stdout stderrData fs0
    simp only [run_uperf, communicateClient, errsNonempty]
    split
    · rfl
    · split <;> rfl
  · intro params fs0
    rfl

/-- C5: the claim says `write_profile` fails with a `ConfigError` when and
only when the workload violates the mutual-exclusivity invariant. The code
performs no validation at all: on a group with both `nthreads` and `nprocs`
set (invariant violated), it succeeds and emits a document carrying only the
`nthreads` attribute. -/
theorem c5_counterexample :
    validProfileB ⟨"bad", [⟨some 2, some 3, [⟨some 1, none, none, [⟨"write", []⟩]⟩]⟩]⟩
      = false ∧
    write_profile ⟨"bad", [⟨some 2, some 3, [⟨some 1, none, none, [⟨"write", []⟩]⟩]⟩]⟩ =
      ("<?xml version='1.0' encoding='us-ascii'?>\n<profile name=\"bad\">\n  <group nthreads=\"2\">\n    <transaction iterations=\"1\">\n      <flowop type=\"write\" />\n    </transaction>\n  </group>\n</profile>\n").toList := by
  constructor
  · decide
  · decide

/-- C5 (amended): `write_profile` never fails: it validates nothing and
serializes every workload, resolving mutually-exclusive fields first-set-wins
(`nthreads` over `nprocs`; `iterations` over `duration` over `rate`) and
emitting no such attribute when none is set. Formally, erasing the shadowed
fields does not change the emitted document. -/
theorem c5_amended_first_set_wins (p : Profile) :
    write_profile (normProfile p) = write_profile p := by
  rcases p with ⟨nm, gs⟩
  have h : (gs.map fun g =>
        ({ normGroup g with transactions := g.transactions.map normTransaction } : Group)).map
          (groupXml 1)
      = gs.map (groupXml 1) := by
    rw [List.map_map]
    exact listMapEq _ _ (fun g => groupXml_norm 1 g) gs
  unfold write_profile normProfile
  simp only [h]

/-- C6: the claim says that whenever the child writes to its error stream,
`run_uperf` returns an error carrying the combined stdout+stderr. But
`start_client` pipes only stdout, so `communicate()` always returns `None`
for stderr and the error-stream branch can never fire: here the child writes
`uperf error` to stderr and the invocation still succeeds. -/
theorem c6_counterexample :
    run_uperf ⟨"test", []⟩
        (.runs ("running profile:test ...\ntimestamp_ms:1000.00 name:Txn1 nr_bytes:0 nr_ops:0\ntimestamp_ms:1500.00 name:Txn1 nr_bytes:640 nr_ops:32").toList
          ("uperf error").toList) false
      = (false, .ok (.success ("test").toList [(1, [(1500000, ⟨640, 32, 15625000⟩)])])) := by
  decide

/-- C6 (amended): the error stream is never captured in client mode
(`Popen` is called without a `stderr` argument), so the result of `run_uperf`
is independent of what the child writes to stderr. -/
theorem c6_amended_stderr_ignored (params : Profile) (stdout sd sd' : List Char) (fs0 : Bool) :
    run_uperf params (.runs stdout sd) fs0 = run_uperf params (.runs stdout sd') fs0 := rfl

/-- C7: `process_output` returns the "name not found" error exactly when the
name-announcement line is absent (no match of the profile pattern), and
returns the "no results found" error when the name line is present but zero
sample records occur in the text. -/
theorem c7_parse_error_taxonomy (s : List Char) :
    (process_output s = .ok (.error (nameNotFoundMsg s)) ↔ findProfileRun s = none) ∧
    (∀ r, findProfileRun s = some r → findAllSamples s = [] →
      process_output s = .ok (.error (noResultsMsg s))) := by
  constructor
  · constructor
    · intro h
      cases hr : findProfileRun s with
      | none => rfl
      | some r =>
        exfalso
        simp only [process_output, hr] at h
        split at h
        · exact Except.noConfusion h
        · split at h
          · injection h with h1
            injection h1 with h2
            exact noResults_ne_nameNotFound s h2
          · injection h with h1
            exact UPerfOutcome.noConfusion h1
    · intro h
      simp only [process_output, h]
  · intro r hr hall
    simp only [process_output, hr, hall]
    rfl

/-- C7 (witness): on a concrete text containing the name line but no sample
record, the parser reports "no results found". -/
theorem c7_witness :
    findProfileRun ("running profile:w ...\nno samples").toList = some ("w").toList ∧
    findAllSamples ("running profile:w ...\nno samples").toList = [] ∧
    process_output ("running profile:w ...\nno samples").toList
      = .ok (.error (noResultsMsg ("running profile:w ...\nno samples").toList)) :=
  ⟨by decide, by decide,
    (c7_parse_error_taxonomy _).2 (("w").toList) (by decide) (by decide)⟩

/-- C8: a server run that does not exit before the caller-supplied duration
yields success with an empty payload; one that exits early yields an error
carrying its exit code and combined stdout+stderr. -/
theorem c8_server_outcomes :
    run_uperf_server .timesOut = .success ∧
    ∀ (returncode : Int) (stdout stderrData : List Char),
      run_uperf_server (.exits returncode stdout stderrData)
        = .error returncode (stdout ++ stderrData) :=
  ⟨rfl, fun _ _ _ => rfl⟩

/-- C9: for every workload satisfying the mutual-exclusivity invariant, the
emitted document ends with exactly one trailing newline after the final
closing tag (the character before the final `'\n'` is `'>'`). -/
theorem c9_trailing_newline (p : Profile) (_valid : validProfileB p = true) :
    ∃ pre : List Char, write_profile p = pre ++ ['>', '\n'] := by
  obtain ⟨pre, hpre⟩ := elemXml_close "profile" [("name", p.name)] (p.groups.map (groupXml 1)) 0
  refine ⟨("<?xml version='1.0' encoding='us-ascii'?>\n").toList ++ pre, ?_⟩
  unfold write_profile
  rw [hpre]
  simp [List.append_assoc]

/-- C9 (witness): the degenerate single-group, single-transaction,
zero-option-operation workload is valid and its document ends in `>` then a
single newline. -/
theorem c9_witness :
    validProfileB ⟨"demo", [⟨some 1, none, [⟨some 1, none, none, [⟨"write", []⟩]⟩]⟩]⟩ = true ∧
    ∃ pre : List Char,
      write_profile ⟨"demo", [⟨some 1, none, [⟨some 1, none, none, [⟨"write", []⟩]⟩]⟩]⟩
        = pre ++ ['>', '\n'] :=
  ⟨by decide, c9_trailing_newline _ (by decide)⟩

/-- C10: when the name line is present and at least one sample record occurs,
but every sample is the first for its transaction index and has operation
count 0 (indices pairwise distinct), all samples are suppressed and
`process_output` returns success with an empty `timeseries_data` map — the
"no results found" check counts raw pattern matches, not retained
measurements. -/
theorem c10_all_suppressed_empty_success (s : List Char) (nm : List Char)
    (tds : List RawSample)
    (hname : findProfileRun s = some nm)
    (hfind : findAllSamples s = tds)
    (hne : tds ≠ [])
    (hv : ∀ r ∈ tds, (parseFloatVal r.ts).isSome ∧ parseNatDigits r.nops = 0)
    (hnodup : (tds.map fun r => parseNatDigits r.txn).Nodup) :
    process_output s = .ok (.success nm []) := by
  have hloop := processSamples_fresh_zero tds [] [] hv (fun r _ => rfl) hnodup
  simp only [process_output, hname, hfind, hloop]
  rw [if_neg (fun h0 => hne (List.length_eq_zero.mp h0))]

/-- C10 (witness): a concrete output whose single sample is a first sample
with `nr_ops:0` parses to success with an empty time-series map. -/
theorem c10_witness :
    findProfileRun ("running profile:t5 ...\ntimestamp_ms:1000.00 name:Txn1 nr_bytes:0 nr_ops:0").toList
      = some ("t5").toList ∧
    findAllSamples ("running profile:t5 ...\ntimestamp_ms:1000.00 name:Txn1 nr_bytes:0 nr_ops:0").toList
      = [⟨("1000.00").toList, ("1").toList, ("0").toList, ("0").toList⟩] ∧
    process_output ("running profile:t5 ...\ntimestamp_ms:1000.00 name:Txn1 nr_bytes:0 nr_ops:0").toList
      = .ok (.success ("t5").toList []) :=
  ⟨by decide, by decide,
    c10_all_suppressed_empty_success
      ("running profile:t5 ...\ntimestamp_ms:1000.00 name:Txn1 nr_bytes:0 nr_ops:0").toList
      (("t5").toList)
      [⟨("1000.00").toList, ("1").toList, ("0").toList, ("0").toList⟩]
      (by decide) (by decide) (by decide) (by decide) (by decide)⟩

/-- C2 (witness): concrete two-sample run for transaction 7: the first sample
(`ops=0`) is discarded but updates the last timestamp; the second is recorded
with latency relative to the first sample's timestamp. -/
theorem c2_witness :
    processSample [] [] ⟨("1000.00").toList, ("7").toList, ("0").toList, ("0").toList⟩
      = .ok (dictSet [] 7 (pyTime (mkRat 1000 1)), []) ∧
    processSamples [⟨("1000.00").toList, ("7").toList, ("0").toList, ("0").toList⟩,
        ⟨("1500.00").toList, ("7").toList, ("640").toList, ("32").toList⟩] [] []
      = .ok (dictSet [] 7 [(pyTime (mkRat 1500 1),
          ⟨parseNatDigits ("640").toList, parseNatDigits ("32").toList,
            if parseNatDigits ("32").toList = 0 then 0
            else pyIntOfRat (mkRat (1000 * (pyTime (mkRat 1500 1) - pyTime (mkRat 1000 1)))
              (parseNatDigits ("32").toList))⟩)]) :=
  c2_first_zero_sample_suppressed _ _ [] [] (mkRat 1000 1) (mkRat 1500 1) 7
    (by decide) (by decide) (by decide) (by decide) (by decide) rfl rfl

end Uperf
